import Mathlib

/-!
Verification of `icdutil.addrrange` (file `src/icdutil/addrrange.py`).

The module defines a single immutable value type `AddrRange` with fields
`baseaddr`, `size` and an optional `addrwidth`, plus derived accessors
(`endaddr`, `nextaddr`), a membership test (`__contains__`), iteration
(`__iter__`), structural equality (`__eq__`), an overlap test
(`is_overlapping`) and an intersection (`get_intersect`).

Embedding choices, faithful to the source:
* Python integers are arbitrary-precision, so addresses and sizes are
  modelled as `Int`.
* `baseaddr` is stored as `Hex(baseaddr, width=addrwidth)` and `size` as
  `Bytes(size)`; both `Hex` and `Bytes` (from the external `humannum`
  package) are `int` subclasses whose wrappers only change display
  formatting, never the numeric value, so they are modelled as the
  underlying integers.  `addrwidth` only feeds formatting and equality.
* `__init__` performs no validation whatsoever: it wraps the two numbers
  and stores the three fields.  It has no failure path.  To make claims
  about construction failure statable, construction is modelled as an
  `Except String AddrRange` that (matching the source) always succeeds.
* `__eq__` returns the sentinel `NotImplemented` when `other` is not an
  `AddrRange`; this is modelled with an `Option Bool` result (`none` for
  `NotImplemented`).
* `__iter__` returns `iter(range(baseaddr, endaddr + 1))`; Python's
  `range(a, b)` yields `max (b - a) 0` consecutive integers starting at
  `a`, which is modelled as a `List Int`.
-/

namespace IcdUtil

/-- The `AddrRange` value type: `baseaddr`, `size` (both Python ints,
modelled as `Int`) and the optional display width `addrwidth`. -/
structure AddrRange where
  baseaddr : Int
  size : Int
  addrwidth : Option Int
  deriving DecidableEq, Repr

/-- `AddrRange.__init__` (src/icdutil/addrrange.py:43-85): wraps `baseaddr`
in `Hex` and `size` in `Bytes` (display-only, numerically the identity) and
stores the fields via `__attrs_init__`.  The source contains no validation
and no raise statement, so construction always succeeds; the `Except`
result type records the absence of a failure path. -/
def constructAddrRange (baseaddr size : Int) (addrwidth : Option Int) :
    Except String AddrRange :=
  Except.ok { baseaddr := baseaddr, size := size, addrwidth := addrwidth }

/-- `AddrRange.endaddr` (property): `baseaddr + size - 1`. -/
def AddrRange.endaddr (r : AddrRange) : Int :=
  r.baseaddr + r.size - 1

/-- `AddrRange.nextaddr` (property): `endaddr + 1`. -/
def AddrRange.nextaddr (r : AddrRange) : Int :=
  r.endaddr + 1

/-- `AddrRange.__contains__`: `baseaddr <= value <= endaddr`. -/
def AddrRange.contains (r : AddrRange) (value : Int) : Bool :=
  decide (r.baseaddr ≤ value) && decide (value ≤ r.endaddr)

/-- `AddrRange.__iter__`: `iter(range(baseaddr, endaddr + 1))`.
Python's `range(a, b)` enumerates `a, a+1, ..., b-1`, i.e. `max (b-a) 0`
consecutive values starting at `a`. -/
def AddrRange.addr_list (r : AddrRange) : List Int :=
  (List.range (r.endaddr + 1 - r.baseaddr).toNat).map
    (fun (i : Nat) => r.baseaddr + (i : Int))

/-- `AddrRange.is_overlapping` (src/icdutil/addrrange.py:119-147):
case split on which range starts first. -/
def AddrRange.is_overlapping (self other : AddrRange) : Bool :=
  if self.baseaddr < other.baseaddr then
    decide (self.endaddr ≥ other.baseaddr)
  else
    decide (self.baseaddr ≤ other.endaddr)

/-- `AddrRange.get_intersect` (src/icdutil/addrrange.py:149-171):
`baseaddr = max(...)`, `endaddr = min(...)`, `size = endaddr - baseaddr + 1`,
returning `AddrRange(baseaddr, size, addrwidth=self.addrwidth)` when
`size > 0` and `None` otherwise. -/
def AddrRange.get_intersect (self other : AddrRange) : Option AddrRange :=
  let baseaddr := max self.baseaddr other.baseaddr
  let endaddr := min self.endaddr other.endaddr
  let size := endaddr - baseaddr + 1
  if size > 0 then
    some { baseaddr := baseaddr, size := size, addrwidth := self.addrwidth }
  else
    none

/-- A Python value an `AddrRange` may be compared against with `==`:
either another `AddrRange` or a value of an unrelated type. -/
inductive PyValue where
  | addrRange : AddrRange → PyValue
  | foreign : PyValue
  deriving DecidableEq

/-- `AddrRange.__eq__` (src/icdutil/addrrange.py:106-109): when `other` is
an `AddrRange`, compare the tuples `(addrwidth, baseaddr, size)`; otherwise
return the sentinel `NotImplemented`, modelled as `none`. -/
def AddrRange.py_eq (self : AddrRange) : PyValue → Option Bool
  | PyValue.addrRange o =>
      some (decide ((self.addrwidth, self.baseaddr, self.size) =
        (o.addrwidth, o.baseaddr, o.size)))
  | PyValue.foreign => none

/-- The symmetric interval-overlap test, written from the spec's words
(`self.baseaddr <= other.endaddr() && other.baseaddr <= self.endaddr()`),
for comparison with `is_overlapping` in the refinement claim. -/
def overlap_symmetric_spec (self other : AddrRange) : Bool :=
  decide (self.baseaddr ≤ other.endaddr) && decide (other.baseaddr ≤ self.endaddr)

/-- Helper: for ranges of positive size, the implemented case-split overlap
test agrees with the symmetric closed-interval condition. -/
theorem overlap_iff (a b : AddrRange) (ha : 1 ≤ a.size) (hb : 1 ≤ b.size) :
    a.is_overlapping b = true ↔ a.baseaddr ≤ b.endaddr ∧ b.baseaddr ≤ a.endaddr := by
  unfold AddrRange.is_overlapping AddrRange.endaddr at *
  split <;> simp <;> omega

/-- Helper: `get_intersect` returns `none` exactly when the clipped size
`min endaddr - max baseaddr + 1` is not positive. -/
theorem get_intersect_eq_none_iff (a b : AddrRange) :
    a.get_intersect b = none ↔
      ¬ (0 < min a.endaddr b.endaddr - max a.baseaddr b.baseaddr + 1) := by
  unfold AddrRange.get_intersect
  dsimp only
  split <;> simp_all

/-- Helper: the range produced by `get_intersect`, when present, is exactly
the clip of the two operands. -/
theorem get_intersect_eq_some_iff (a b r : AddrRange) :
    a.get_intersect b = some r ↔
      0 < min a.endaddr b.endaddr - max a.baseaddr b.baseaddr + 1 ∧
      r = { baseaddr := max a.baseaddr b.baseaddr,
            size := min a.endaddr b.endaddr - max a.baseaddr b.baseaddr + 1,
            addrwidth := a.addrwidth } := by
  unfold AddrRange.get_intersect
  dsimp only
  split <;> simp_all [eq_comm]

/-- C1: the claim states that construction raises `InvalidRangeError`
if and only if `size <= 0`.  The source's `__init__` contains no
validation and no raise statement, so this fails: `AddrRange(0x1000, 0)`
succeeds and yields a live zero-size range. -/
theorem construct_zero_size_succeeds :
    constructAddrRange 4096 0 none =
      Except.ok { baseaddr := 4096, size := 0, addrwidth := none } ∧
    ({ baseaddr := 4096, size := 0, addrwidth := none } : AddrRange).size ≤ 0 := by
  exact ⟨rfl, by decide⟩

/-- C1 (amended): construction never fails; for every `baseaddr`, `size`
(including `size <= 0`) and `addrwidth` it succeeds and stores exactly the
given field values, performing no validation. -/
theorem construct_total (baseaddr size : Int) (addrwidth : Option Int) :
    constructAddrRange baseaddr size addrwidth =
      Except.ok { baseaddr := baseaddr, size := size, addrwidth := addrwidth } :=
  rfl

/-- C2: the claim states every live instance satisfies `size >= 1` and
`endaddr >= baseaddr`, established by construction.  Construction does not
establish it: `AddrRange(0, 0)` is live with `size = 0` and
`endaddr = -1 < 0 = baseaddr`. -/
theorem construct_zero_size_breaks_invariant :
    constructAddrRange 0 0 none =
      Except.ok { baseaddr := 0, size := 0, addrwidth := none } ∧
    ¬ (1 ≤ ({ baseaddr := 0, size := 0, addrwidth := none } : AddrRange).size) ∧
    ¬ (({ baseaddr := 0, size := 0, addrwidth := none } : AddrRange).baseaddr ≤
        ({ baseaddr := 0, size := 0, addrwidth := none } : AddrRange).endaddr) := by
  refine ⟨rfl, by decide, by decide⟩

/-- C2 (amended): a range constructed with `size >= 1` satisfies
`size >= 1` and `endaddr >= baseaddr`, and every range returned by
`get_intersect` satisfies both; but construction itself does not enforce
the invariant for `size <= 0`. -/
theorem invariant_of_valid_construct_and_intersect :
    (∀ (b s : Int) (w : Option Int) (r : AddrRange), 1 ≤ s →
      constructAddrRange b s w = Except.ok r →
      1 ≤ r.size ∧ r.baseaddr ≤ r.endaddr) ∧
    (∀ a b r : AddrRange, a.get_intersect b = some r →
      1 ≤ r.size ∧ r.baseaddr ≤ r.endaddr) := by
  constructor
  · intro b s w r hs hc
    injection hc with hc
    subst hc
    refine ⟨hs, ?_⟩
    simp only [AddrRange.endaddr]
    omega
  · intro a b r h
    rw [get_intersect_eq_some_iff] at h
    obtain ⟨hpos, rfl⟩ := h
    simp only [AddrRange.endaddr] at hpos ⊢
    constructor <;> omega

/-- Witness for C2 (amended): instantiated at `AddrRange(0x1000, 0x100)`
and at `AddrRange(0x1000, 0x1000).get_intersect(AddrRange(0x1FFF, 1))`. -/
theorem invariant_of_valid_construct_and_intersect_witness :
    ((1 : Int) ≤ 256 ∧
      constructAddrRange 4096 256 none =
        Except.ok { baseaddr := 4096, size := 256, addrwidth := none } ∧
      1 ≤ ({ baseaddr := 4096, size := 256, addrwidth := none } : AddrRange).size ∧
      ({ baseaddr := 4096, size := 256, addrwidth := none } : AddrRange).baseaddr ≤
        ({ baseaddr := 4096, size := 256, addrwidth := none } : AddrRange).endaddr) ∧
    (({ baseaddr := 4096, size := 4096, addrwidth := none } : AddrRange).get_intersect
        { baseaddr := 8191, size := 1, addrwidth := none } =
      some { baseaddr := 8191, size := 1, addrwidth := none } ∧
      1 ≤ ({ baseaddr := 8191, size := 1, addrwidth := none } : AddrRange).size ∧
      ({ baseaddr := 8191, size := 1, addrwidth := none } : AddrRange).baseaddr ≤
        ({ baseaddr := 8191, size := 1, addrwidth := none } : AddrRange).endaddr) := by
  refine ⟨⟨by decide, rfl, ?_⟩, ⟨by decide, ?_⟩⟩
  · exact invariant_of_valid_construct_and_intersect.1 4096 256 none
      { baseaddr := 4096, size := 256, addrwidth := none } (by decide) rfl
  · exact invariant_of_valid_construct_and_intersect.2
      { baseaddr := 4096, size := 4096, addrwidth := none }
      { baseaddr := 8191, size := 1, addrwidth := none }
      { baseaddr := 8191, size := 1, addrwidth := none } (by decide)

/-- C10: `__eq__` on two `AddrRange` values is structural equality of the
tuple `(baseaddr, size, addrwidth)` (addrwidth participates), and against
a value of an unrelated type it returns the `NotImplemented` sentinel
(`none`) rather than `false`. -/
theorem py_eq_structural (a b : AddrRange) :
    (a.py_eq (PyValue.addrRange b) = some true ↔
      a.baseaddr = b.baseaddr ∧ a.size = b.size ∧ a.addrwidth = b.addrwidth) ∧
    a.py_eq PyValue.foreign = none := by
  unfold AddrRange.py_eq
  simp
  tauto

/-- C3: for valid ranges, `is_overlapping` returns true iff the two ranges
share at least one address, i.e. some `v` is contained in both. -/
theorem overlap_iff_shares_address (a b : AddrRange)
    (ha : 1 ≤ a.size) (hb : 1 ≤ b.size) :
    a.is_overlapping b = true ↔
      ∃ v : Int, a.contains v = true ∧ b.contains v = true := by
  rw [overlap_iff a b ha hb]
  simp only [AddrRange.contains, AddrRange.endaddr, Bool.and_eq_true,
    decide_eq_true_eq] at *
  constructor
  · intro h
    exact ⟨max a.baseaddr b.baseaddr, ⟨by omega, by omega⟩, ⟨by omega, by omega⟩⟩
  · rintro ⟨v, ⟨h1, h2⟩, ⟨h3, h4⟩⟩
    omega

/-- Witness for C3: `AddrRange(0x1000, 0x1000)` and `AddrRange(0x1FFF, 1)`
overlap and indeed share an address. -/
theorem overlap_iff_shares_address_witness :
    (1 : Int) ≤ 4096 ∧ (1 : Int) ≤ 1 ∧
    (({ baseaddr := 4096, size := 4096, addrwidth := none } : AddrRange).is_overlapping
        { baseaddr := 8191, size := 1, addrwidth := none } = true ↔
      ∃ v : Int,
        ({ baseaddr := 4096, size := 4096, addrwidth := none } : AddrRange).contains v = true ∧
        ({ baseaddr := 8191, size := 1, addrwidth := none } : AddrRange).contains v = true) :=
  ⟨by decide, by decide,
    overlap_iff_shares_address
      { baseaddr := 4096, size := 4096, addrwidth := none }
      { baseaddr := 8191, size := 1, addrwidth := none } (by decide) (by decide)⟩

/-- C4: for valid ranges, `get_intersect` returns `none` exactly when
`is_overlapping` returns `false`; both functions are total by type. -/
theorem get_intersect_none_iff_not_overlapping (a b : AddrRange)
    (ha : 1 ≤ a.size) (hb : 1 ≤ b.size) :
    a.get_intersect b = none ↔ a.is_overlapping b = false := by
  rw [get_intersect_eq_none_iff, ← Bool.not_eq_true, overlap_iff a b ha hb]
  simp only [AddrRange.endaddr]
  omega

/-- Witness for C4: `AddrRange(0x1000, 0x1000)` and `AddrRange(0x3000, 0x1000)`
do not overlap and their intersection is absent. -/
theorem get_intersect_none_iff_not_overlapping_witness :
    (1 : Int) ≤ 4096 ∧ (1 : Int) ≤ 4096 ∧
    (({ baseaddr := 4096, size := 4096, addrwidth := none } : AddrRange).get_intersect
        { baseaddr := 12288, size := 4096, addrwidth := none } = none ↔
      ({ baseaddr := 4096, size := 4096, addrwidth := none } : AddrRange).is_overlapping
        { baseaddr := 12288, size := 4096, addrwidth := none } = false) :=
  ⟨by decide, by decide,
    get_intersect_none_iff_not_overlapping
      { baseaddr := 4096, size := 4096, addrwidth := none }
      { baseaddr := 12288, size := 4096, addrwidth := none } (by decide) (by decide)⟩

/-- C5: for valid ranges, the implemented case-split overlap rule equals the
symmetric interval test `a.baseaddr <= b.endaddr && b.baseaddr <= a.endaddr`,
with the stated tie-breaks: when `a` ends exactly where `b` begins
(`a.nextaddr = b.baseaddr`, the boundary reading of the source's doctest
`AddrRange(0x1000, '4 KB')` vs `AddrRange(0x2000, ...)`), the ranges do not
overlap; ranges sharing a base address overlap. -/
theorem overlap_matches_symmetric_and_tiebreaks (a b : AddrRange)
    (ha : 1 ≤ a.size) (hb : 1 ≤ b.size) :
    a.is_overlapping b = overlap_symmetric_spec a b ∧
    (a.nextaddr = b.baseaddr → a.is_overlapping b = false) ∧
    (a.baseaddr = b.baseaddr → a.is_overlapping b = true) := by
  refine ⟨?_, ?_, ?_⟩
  · rw [Bool.eq_iff_iff, overlap_iff a b ha hb]
    unfold overlap_symmetric_spec AddrRange.endaddr at *
    simp only [Bool.and_eq_true, decide_eq_true_eq]
  · intro h
    unfold AddrRange.nextaddr AddrRange.endaddr at h
    unfold AddrRange.is_overlapping AddrRange.endaddr at *
    split <;> simp <;> omega
  · intro h
    unfold AddrRange.is_overlapping AddrRange.endaddr at *
    split <;> simp <;> omega

/-- Witness for C5: instantiated at `AddrRange(0x1000, 0x1000)` and
`AddrRange(0x2000, 0x1000)`. -/
theorem overlap_matches_symmetric_and_tiebreaks_witness :
    (1 : Int) ≤ 4096 ∧ (1 : Int) ≤ 4096 ∧
    (({ baseaddr := 4096, size := 4096, addrwidth := none } : AddrRange).is_overlapping
        { baseaddr := 8192, size := 4096, addrwidth := none } =
      overlap_symmetric_spec
        { baseaddr := 4096, size := 4096, addrwidth := none }
        { baseaddr := 8192, size := 4096, addrwidth := none } ∧
    (({ baseaddr := 4096, size := 4096, addrwidth := none } : AddrRange).nextaddr =
        ({ baseaddr := 8192, size := 4096, addrwidth := none } : AddrRange).baseaddr →
      ({ baseaddr := 4096, size := 4096, addrwidth := none } : AddrRange).is_overlapping
        { baseaddr := 8192, size := 4096, addrwidth := none } = false) ∧
    (({ baseaddr := 4096, size := 4096, addrwidth := none } : AddrRange).baseaddr =
        ({ baseaddr := 8192, size := 4096, addrwidth := none } : AddrRange).baseaddr →
      ({ baseaddr := 4096, size := 4096, addrwidth := none } : AddrRange).is_overlapping
        { baseaddr := 8192, size := 4096, addrwidth := none } = true)) :=
  ⟨by decide, by decide,
    overlap_matches_symmetric_and_tiebreaks
      { baseaddr := 4096, size := 4096, addrwidth := none }
      { baseaddr := 8192, size := 4096, addrwidth := none } (by decide) (by decide)⟩

/-- C6: whenever `get_intersect` returns a range `r`, its fields are the
clip of the operands: `r.baseaddr = max` of the base addresses, `r.endaddr
= min` of the end addresses, `r.size = r.endaddr - r.baseaddr + 1`, and
`r.addrwidth` is the first operand's width. -/
theorem get_intersect_result_fields (a b r : AddrRange)
    (h : a.get_intersect b = some r) :
    r.baseaddr = max a.baseaddr b.baseaddr ∧
    r.endaddr = min a.endaddr b.endaddr ∧
    r.size = r.endaddr - r.baseaddr + 1 ∧
    r.addrwidth = a.addrwidth := by
  rw [get_intersect_eq_some_iff] at h
  obtain ⟨hpos, rfl⟩ := h
  refine ⟨rfl, ?_, ?_, rfl⟩ <;> simp only [AddrRange.endaddr] <;> omega

/-- Witness for C6: `AddrRange(0x1000, 0x1000).get_intersect(
AddrRange(0x1FFF, 1, addrwidth=32))` yields `AddrRange(0x1FFF, 1)` whose
width follows the receiver. -/
theorem get_intersect_result_fields_witness :
    ({ baseaddr := 4096, size := 4096, addrwidth := none } : AddrRange).get_intersect
      { baseaddr := 8191, size := 1, addrwidth := some 32 } =
      some { baseaddr := 8191, size := 1, addrwidth := none } ∧
    (({ baseaddr := 8191, size := 1, addrwidth := none } : AddrRange).baseaddr =
      max ({ baseaddr := 4096, size := 4096, addrwidth := none } : AddrRange).baseaddr
        ({ baseaddr := 8191, size := 1, addrwidth := some 32 } : AddrRange).baseaddr ∧
    ({ baseaddr := 8191, size := 1, addrwidth := none } : AddrRange).endaddr =
      min ({ baseaddr := 4096, size := 4096, addrwidth := none } : AddrRange).endaddr
        ({ baseaddr := 8191, size := 1, addrwidth := some 32 } : AddrRange).endaddr ∧
    ({ baseaddr := 8191, size := 1, addrwidth := none } : AddrRange).size =
      ({ baseaddr := 8191, size := 1, addrwidth := none } : AddrRange).endaddr -
        ({ baseaddr := 8191, size := 1, addrwidth := none } : AddrRange).baseaddr + 1 ∧
    ({ baseaddr := 8191, size := 1, addrwidth := none } : AddrRange).addrwidth =
      ({ baseaddr := 4096, size := 4096, addrwidth := none } : AddrRange).addrwidth) :=
  ⟨by decide,
    get_intersect_result_fields
      { baseaddr := 4096, size := 4096, addrwidth := none }
      { baseaddr := 8191, size := 1, addrwidth := some 32 }
      { baseaddr := 8191, size := 1, addrwidth := none } (by decide)⟩

/-- C7: for valid ranges, `is_overlapping` is symmetric, and `get_intersect`
is commutative in the resulting bounds: the two orders are either both
absent or both present with the same `baseaddr` and `endaddr` (only the
returned `addrwidth` follows the receiver). -/
theorem overlap_symm_intersect_comm (a b : AddrRange)
    (ha : 1 ≤ a.size) (hb : 1 ≤ b.size) :
    a.is_overlapping b = b.is_overlapping a ∧
    (a.get_intersect b).map (fun r => (r.baseaddr, r.endaddr)) =
      (b.get_intersect a).map (fun r => (r.baseaddr, r.endaddr)) := by
  constructor
  · rw [Bool.eq_iff_iff, overlap_iff a b ha hb, overlap_iff b a hb ha]
    tauto
  · rcases hab : a.get_intersect b with _ | r <;>
      rcases hba : b.get_intersect a with _ | s
    · rfl
    · exfalso
      rw [get_intersect_eq_none_iff] at hab
      rw [get_intersect_eq_some_iff] at hba
      simp only [AddrRange.endaddr] at hab hba
      omega
    · exfalso
      rw [get_intersect_eq_none_iff] at hba
      rw [get_intersect_eq_some_iff] at hab
      simp only [AddrRange.endaddr] at hab hba
      omega
    · rw [get_intersect_eq_some_iff] at hab hba
      obtain ⟨h1, rfl⟩ := hab
      obtain ⟨h2, rfl⟩ := hba
      simp only [AddrRange.endaddr, Option.map_some', Option.some.injEq,
        Prod.mk.injEq]
      constructor <;> omega

/-- Witness for C7: instantiated at `AddrRange(0x3000, 0x1000)` and
`AddrRange(0x0, 0x8000, addrwidth=32)`. -/
theorem overlap_symm_intersect_comm_witness :
    (1 : Int) ≤ 4096 ∧ (1 : Int) ≤ 32768 ∧
    (({ baseaddr := 12288, size := 4096, addrwidth := none } : AddrRange).is_overlapping
        { baseaddr := 0, size := 32768, addrwidth := some 32 } =
      ({ baseaddr := 0, size := 32768, addrwidth := some 32 } : AddrRange).is_overlapping
        { baseaddr := 12288, size := 4096, addrwidth := none } ∧
    (({ baseaddr := 12288, size := 4096, addrwidth := none } : AddrRange).get_intersect
        { baseaddr := 0, size := 32768, addrwidth := some 32 }).map
          (fun r => (r.baseaddr, r.endaddr)) =
      (({ baseaddr := 0, size := 32768, addrwidth := some 32 } : AddrRange).get_intersect
        { baseaddr := 12288, size := 4096, addrwidth := none }).map
          (fun r => (r.baseaddr, r.endaddr))) :=
  ⟨by decide, by decide,
    overlap_symm_intersect_comm
      { baseaddr := 12288, size := 4096, addrwidth := none }
      { baseaddr := 0, size := 32768, addrwidth := some 32 } (by decide) (by decide)⟩

/-- C8: `contains v` is true iff `baseaddr <= v <= endaddr` with
`endaddr = baseaddr + size - 1`; for a valid range it is true at both
boundary addresses and false just outside them. -/
theorem contains_iff_bounds (r : AddrRange) (v : Int) (h : 1 ≤ r.size) :
    (r.contains v = true ↔ r.baseaddr ≤ v ∧ v ≤ r.endaddr) ∧
    r.endaddr = r.baseaddr + r.size - 1 ∧
    r.contains r.baseaddr = true ∧
    r.contains r.endaddr = true ∧
    r.contains (r.baseaddr - 1) = false ∧
    r.contains (r.endaddr + 1) = false := by
  refine ⟨?_, ?_, ?_, ?_, ?_, ?_⟩ <;>
    simp only [AddrRange.contains, AddrRange.endaddr, Bool.and_eq_true,
      decide_eq_true_eq, Bool.and_eq_false_iff, decide_eq_false_iff_not] <;>
    omega

/-- Witness for C8: instantiated at `AddrRange(0x1000, 0x100)` and the
address `0x1008` from the source's doctest. -/
theorem contains_iff_bounds_witness :
    (1 : Int) ≤ 256 ∧
    ((({ baseaddr := 4096, size := 256, addrwidth := none } : AddrRange).contains 4104 = true ↔
      ({ baseaddr := 4096, size := 256, addrwidth := none } : AddrRange).baseaddr ≤ 4104 ∧
        (4104 : Int) ≤ ({ baseaddr := 4096, size := 256, addrwidth := none } : AddrRange).endaddr) ∧
    ({ baseaddr := 4096, size := 256, addrwidth := none } : AddrRange).endaddr =
      ({ baseaddr := 4096, size := 256, addrwidth := none } : AddrRange).baseaddr +
        ({ baseaddr := 4096, size := 256, addrwidth := none } : AddrRange).size - 1 ∧
    ({ baseaddr := 4096, size := 256, addrwidth := none } : AddrRange).contains
      ({ baseaddr := 4096, size := 256, addrwidth := none } : AddrRange).baseaddr = true ∧
    ({ baseaddr := 4096, size := 256, addrwidth := none } : AddrRange).contains
      ({ baseaddr := 4096, size := 256, addrwidth := none } : AddrRange).endaddr = true ∧
    ({ baseaddr := 4096, size := 256, addrwidth := none } : AddrRange).contains
      (({ baseaddr := 4096, size := 256, addrwidth := none } : AddrRange).baseaddr - 1) = false ∧
    ({ baseaddr := 4096, size := 256, addrwidth := none } : AddrRange).contains
      (({ baseaddr := 4096, size := 256, addrwidth := none } : AddrRange).endaddr + 1) = false) :=
  ⟨by decide,
    contains_iff_bounds { baseaddr := 4096, size := 256, addrwidth := none } 4104 (by decide)⟩

/-- Helper: the first element of `range n` shifted by `b`. -/
theorem range_map_add_head (b : Int) (n : Nat) (hn : n ≠ 0) :
    ((List.range n).map (fun (i : Nat) => b + (i : Int))).head? = some b := by
  obtain ⟨m, rfl⟩ := Nat.exists_eq_succ_of_ne_zero hn
  rw [List.range_succ_eq_map]
  simp

/-- Helper: the last element of `range (m+1)` shifted by `b`. -/
theorem range_map_add_getLast (b : Int) (m : Nat) :
    ((List.range (m + 1)).map (fun (i : Nat) => b + (i : Int))).getLast? =
      some (b + (m : Int)) := by
  rw [List.range_succ, List.map_append]
  simp [List.getLast?_concat]

/-- C9: for a valid range, iteration yields exactly `size` addresses,
strictly ascending, first `baseaddr`, last `endaddr`, and the yielded
addresses are exactly the addresses of the range. -/
theorem iteration_exact (r : AddrRange) (h : 1 ≤ r.size) :
    (r.addr_list.length : Int) = r.size ∧
    r.addr_list.Pairwise (· < ·) ∧
    r.addr_list.head? = some r.baseaddr ∧
    r.addr_list.getLast? = some r.endaddr ∧
    ∀ v : Int, v ∈ r.addr_list ↔ r.baseaddr ≤ v ∧ v ≤ r.endaddr := by
  refine ⟨?_, ?_, ?_, ?_, ?_⟩
  · simp only [AddrRange.addr_list, List.length_map, List.length_range]
    unfold AddrRange.endaddr
    omega
  · unfold AddrRange.addr_list
    exact (List.pairwise_lt_range _).map _ (fun x y hxy => by omega)
  · have hn : (r.endaddr + 1 - r.baseaddr).toNat ≠ 0 := by
      unfold AddrRange.endaddr
      omega
    unfold AddrRange.addr_list
    exact range_map_add_head r.baseaddr _ hn
  · have hn : (r.endaddr + 1 - r.baseaddr).toNat ≠ 0 := by
      unfold AddrRange.endaddr
      omega
    obtain ⟨m, hm⟩ := Nat.exists_eq_succ_of_ne_zero hn
    rw [Nat.succ_eq_add_one] at hm
    unfold AddrRange.addr_list
    rw [hm, range_map_add_getLast]
    simp only [Option.some.injEq]
    unfold AddrRange.endaddr at *
    omega
  · intro v
    unfold AddrRange.addr_list
    simp only [List.mem_map, List.mem_range]
    constructor
    · rintro ⟨i, hi, rfl⟩
      unfold AddrRange.endaddr at *
      omega
    · intro hv
      refine ⟨(v - r.baseaddr).toNat, ?_, ?_⟩ <;>
        unfold AddrRange.endaddr at * <;> omega

/-- Witness for C9: instantiated at `AddrRange(0x200, 6)`, the source's
doctest (yields 512..517). -/
theorem iteration_exact_witness :
    (1 : Int) ≤ 6 ∧
    (((({ baseaddr := 512, size := 6, addrwidth := none } : AddrRange).addr_list.length : Int) =
        ({ baseaddr := 512, size := 6, addrwidth := none } : AddrRange).size) ∧
    ({ baseaddr := 512, size := 6, addrwidth := none } : AddrRange).addr_list.Pairwise (· < ·) ∧
    ({ baseaddr := 512, size := 6, addrwidth := none } : AddrRange).addr_list.head? =
      some ({ baseaddr := 512, size := 6, addrwidth := none } : AddrRange).baseaddr ∧
    ({ baseaddr := 512, size := 6, addrwidth := none } : AddrRange).addr_list.getLast? =
      some ({ baseaddr := 512, size := 6, addrwidth := none } : AddrRange).endaddr ∧
    ∀ v : Int,
      v ∈ ({ baseaddr := 512, size := 6, addrwidth := none } : AddrRange).addr_list ↔
        ({ baseaddr := 512, size := 6, addrwidth := none } : AddrRange).baseaddr ≤ v ∧
          v ≤ ({ baseaddr := 512, size := 6, addrwidth := none } : AddrRange).endaddr) :=
  ⟨by decide,
    iteration_exact { baseaddr := 512, size := 6, addrwidth := none } (by decide)⟩

end IcdUtil
